import Mathlib

/-
Verification of the ingestion / retrieval core of the teams-chatbot repository.

The Python modules `process_and_embed.py`, `query_brain.py`,
`connectors/connector_interface.py`, `connectors/drive_connector.py`,
`connectors/slack_connector.py` and `github_connector.py` are shallowly
embedded below.  Python dictionaries become ordered association lists over a
`Value` type, Python exceptions become `Except PyError`, and the chromadb
vector-store client is modelled as explicit state (a list of stored entries).
-/

set_option maxRecDepth 4096

/-- Python exception model: the distinct exception classes that the embedded
code can raise.  All are caught uniformly by `except Exception` blocks. -/
inductive PyError where
  | keyError (k : String)
  | indexError
  | attributeError (m : String)
  | valueError (m : String)
  | typeError (m : String)
  | exc (m : String)
deriving DecidableEq, Repr

/-- Python value model for the JSON-like data the connectors handle.
`float` carries a decimal mantissa/exponent pair as a shallow stand-in for
IEEE floats; no float arithmetic is modelled (none occurs in the embedded
code paths). -/
inductive Value where
  | str (s : String)
  | int (n : Int)
  | float (mantissa : Int) (exponent : Int)
  | bool (b : Bool)
  | none
  | list (vs : List Value)
  | dict (kvs : List (String × Value))

/-- A Python dict with string keys, as an ordered association list
(Python dicts preserve insertion order and have unique keys). -/
abbrev Item := List (String × Value)

/-- ASCII lower-casing of one character (model of `str.lower` on the ASCII
strings the code manipulates). -/
def charLower (c : Char) : Char :=
  if 'A' ≤ c ∧ c ≤ 'Z' then Char.ofNat (c.toNat + 32) else c

/-- ASCII upper-casing of one character. -/
def charUpper (c : Char) : Char :=
  if 'a' ≤ c ∧ c ≤ 'z' then Char.ofNat (c.toNat - 32) else c

/-- Model of Python `str.lower` (ASCII). -/
def lowerStr (s : String) : String := String.mk (s.data.map charLower)

/-- Fuel-driven replacement of every non-overlapping occurrence of `pat`
(non-empty) by `rep`, scanning left to right as Python `str.replace` does.
Fuel is the length of the scanned list, which suffices because each step
consumes at least one character. -/
def replChars (pat rep : List Char) : Nat → List Char → List Char
  | 0, cs => cs
  | fuel + 1, cs =>
    match cs with
    | [] => []
    | c :: rest =>
      if pat.isPrefixOf cs then rep ++ replChars pat rep fuel (cs.drop pat.length)
      else c :: replChars pat rep fuel rest

/-- Model of Python `str.replace` (for the non-empty patterns used in the
source). -/
def strReplace (s pat rep : String) : String :=
  if pat.data.isEmpty then s
  else String.mk (replChars pat.data rep.data s.data.length s.data)

/-- Fuel-driven splitter behind `strSplitOn`; `cur` is the reversed current
chunk. -/
def splitCharsAux (sep : List Char) : Nat → List Char → List Char → List (List Char)
  | 0, cur, cs => [cur.reverse ++ cs]
  | _ + 1, cur, [] => [cur.reverse]
  | fuel + 1, cur, c :: rest =>
    if sep.isPrefixOf (c :: rest) then
      cur.reverse :: splitCharsAux sep fuel [] ((c :: rest).drop sep.length)
    else splitCharsAux sep fuel (c :: cur) rest

/-- Model of Python `str.split(sep)` for a non-empty separator. -/
def strSplitOn (s sep : String) : List String :=
  if sep.data.isEmpty then [s]
  else (splitCharsAux sep.data s.data.length [] s.data).map String.mk

/-- Model of Python `str.title`: the flag records whether the previous
character was alphabetic. -/
def titleChars : Bool → List Char → List Char
  | _, [] => []
  | prevAlpha, c :: rest =>
    (if c.isAlpha then (if prevAlpha then charLower c else charUpper c) else c)
      :: titleChars c.isAlpha rest

/-- Model of Python `str.title` (ASCII). -/
def pyTitle (s : String) : String := String.mk (titleChars false s.data)

/-- Join a list of strings with a separator, as Python `sep.join(parts)`. -/
def joinSep (sep : String) : List String → String
  | [] => ""
  | [x] => x
  | x :: y :: rest => x ++ sep ++ joinSep sep (y :: rest)

/-- Fuel-bounded equality test behind `Value.beq`; the fuel (always chosen
far above any nesting depth arising in the embedded data) exists only to
make the recursion over the nested inductive structural, so that concrete
runs reduce inside the kernel. -/
def Value.beqF : Nat → Value → Value → Bool
  | _, .str a, .str b => a == b
  | _, .int a, .int b => a == b
  | _, .float a b, .float c d => a == c && b == d
  | _, .bool a, .bool b => a == b
  | _, .none, .none => true
  | fuel + 1, .list as, .list bs =>
    as.length == bs.length && (as.zip bs).all (fun p => Value.beqF fuel p.1 p.2)
  | fuel + 1, .dict as, .dict bs =>
    as.length == bs.length &&
      (as.zip bs).all (fun p => p.1.1 == p.2.1 && Value.beqF fuel p.1.2 p.2.2)
  | _, _, _ => false

/-- Python `==` on values.  Cross-type numeric equalities that Python allows
(`True == 1`, `1 == 1.0`) are irrelevant to every embedded comparison (all
compare strings or differently-shaped values) and are modelled as `false`. -/
def Value.beq (a b : Value) : Bool := Value.beqF 1000 a b

/-- Python truthiness of a value (`if v:`). -/
def Value.truthy : Value → Bool
  | .str s => !s.isEmpty
  | .int n => n != 0
  | .float m _ => m != 0
  | .bool b => b
  | .none => false
  | .list vs => !vs.isEmpty
  | .dict kvs => !kvs.isEmpty

/-- The `isinstance(v, (str, int, float, bool))` test used by the metadata
cleanup in `process_connector_data`. -/
def Value.isScalar : Value → Bool
  | .str _ => true
  | .int _ => true
  | .float _ _ => true
  | .bool _ => true
  | _ => false

/-- Rendering of an `Int` as Python prints it. -/
def intStr (n : Int) : String :=
  match n with
  | .ofNat m => Nat.repr m
  | .negSucc m => "-" ++ Nat.repr (m + 1)

/-- Fuel-bounded renderer behind `Value.pyStr` / `Value.pyRepr`; the flag
selects `repr` (quoted strings) over `str`.  The fuel exists only to make
the recursion over the nested inductive structural; string escaping inside
nested `repr` forms is simplified (no claim depends on that rendering). -/
def Value.renderF : Nat → Bool → Value → String
  | _, asRepr, .str s => if asRepr then "\x27" ++ s ++ "\x27" else s
  | _, _, .int n => intStr n
  | _, _, .float m e => intStr m ++ "e" ++ intStr e
  | _, _, .bool b => if b then "True" else "False"
  | _, _, .none => "None"
  | fuel + 1, _, .list vs => "[" ++ joinSep ", " (vs.map (Value.renderF fuel true)) ++ "]"
  | fuel + 1, _, .dict kvs =>
    "\x7b" ++
      joinSep ", " (kvs.map (fun kv => "\x27" ++ kv.1 ++ "\x27: " ++ Value.renderF fuel true kv.2)) ++
      "\x7d"
  | 0, _, .list _ => "[...]"
  | 0, _, .dict _ => "\x7b...\x7d"

/-- Model of Python `str(v)` as used inside f-strings. -/
def Value.pyStr (v : Value) : String := Value.renderF 1000 false v

/-- Fuel-bounded renderer behind `Value.jsonStr`.  String escaping is
simplified to the identity (the embedded strings contain no characters JSON
would escape); no claim depends on the exact rendering. -/
def Value.jsonF : Nat → Value → String
  | _, .str s => "\"" ++ s ++ "\""
  | _, .int n => intStr n
  | _, .float m e => intStr m ++ "e" ++ intStr e
  | _, .bool b => if b then "true" else "false"
  | _, .none => "null"
  | fuel + 1, .list vs => "[" ++ joinSep ", " (vs.map (Value.jsonF fuel)) ++ "]"
  | fuel + 1, .dict kvs =>
    "\x7b" ++ joinSep ", " (kvs.map (fun kv => "\"" ++ kv.1 ++ "\": " ++ Value.jsonF fuel kv.2)) ++
      "\x7d"
  | 0, .list _ => "[...]"
  | 0, .dict _ => "\x7b...\x7d"

/-- Model of Python `json.dumps(v)` with its default separators. -/
def Value.jsonStr (v : Value) : String := Value.jsonF 1000 v

/-- `item.get(k)`: the first binding of `k` (Python dict keys are unique). -/
def itemGet : Item → String → Option Value
  | [], _ => Option.none
  | (k, v) :: rest, key => if k == key then some v else itemGet rest key

/-- `item.get(k, default)`. -/
def itemGetD (item : Item) (key : String) (dflt : Value) : Value :=
  (itemGet item key).getD dflt

/-- `k in item` (dict key membership). -/
def itemHas (item : Item) (key : String) : Bool :=
  (itemGet item key).isSome

/-- Python dict assignment `item[k] = v`: replace the binding in place if the
key exists, else append. -/
def setKey : Item → String → Value → Item
  | [], key, v => [(key, v)]
  | (k, w) :: rest, key, v =>
    if k == key then (k, v) :: rest else (k, w) :: setKey rest key v

/-- Decimal digit value of a digit character. -/
def d2n (c : Char) : Nat := c.toNat - 48

/-- Fuel-driven substring search behind `strContains`. -/
def containsSub (pat : List Char) : Nat → List Char → Bool
  | 0, cs => pat.isPrefixOf cs
  | fuel + 1, cs =>
    pat.isPrefixOf cs ||
      (match cs with
       | [] => false
       | _ :: rest => containsSub pat fuel rest)

/-- Model of Python substring containment `pat in s`. -/
def strContains (s pat : String) : Bool := containsSub pat.data s.data.length s.data

/-- Validity of a trailing UTC-offset suffix (`+HH:MM` / `-HH:MM`) for the
`fromisoformat` model. -/
def isoOffsetOk : List Char → Bool
  | [] => true
  | sign :: h1 :: h2 :: ':' :: m1 :: m2 :: [] =>
    (sign = '+' || sign = '-') && h1.isDigit && h2.isDigit && m1.isDigit && m2.isDigit &&
      decide (d2n h1 * 10 + d2n h2 < 24) && decide (d2n m1 * 10 + d2n m2 < 60)
  | _ => false

/-- Validity of an optional fractional-seconds part (3 or 6 digits, as
CPython ≤ 3.10 accepts) followed by an optional offset. -/
def isoFracOk : List Char → Bool
  | '.' :: rest =>
    let digs := rest.takeWhile Char.isDigit
    (digs.length == 3 || digs.length == 6) && isoOffsetOk (rest.drop digs.length)
  | rest => isoOffsetOk rest

/-- Validity of an optional `:SS` part followed by fraction/offset. -/
def isoSecondsOk : List Char → Bool
  | [] => true
  | ':' :: s1 :: s2 :: rest =>
    s1.isDigit && s2.isDigit && decide (d2n s1 * 10 + d2n s2 < 60) && isoFracOk rest
  | rest => isoOffsetOk rest

/-- Validity of an optional time part (separator, `HH:MM`, then optional
seconds/fraction/offset). -/
def isoTimeOk : List Char → Bool
  | [] => true
  | sep :: h1 :: h2 :: ':' :: m1 :: m2 :: rest =>
    (sep = 'T' || sep = ' ') && h1.isDigit && h2.isDigit && m1.isDigit && m2.isDigit &&
      decide (d2n h1 * 10 + d2n h2 < 24) && decide (d2n m1 * 10 + d2n m2 < 60) &&
      isoSecondsOk rest
  | _ => false

/-- Shallow model of Python `datetime.fromisoformat`: does the string parse?
Day-of-month validation is simplified to the range 1–31 (no per-month or
leap-year rule); this affects no verified property. -/
def fromisoformatOk (s : String) : Bool :=
  match s.data with
  | y1 :: y2 :: y3 :: y4 :: '-' :: m1 :: m2 :: '-' :: d1 :: d2 :: rest =>
    y1.isDigit && y2.isDigit && y3.isDigit && y4.isDigit &&
      m1.isDigit && m2.isDigit && d1.isDigit && d2.isDigit &&
      decide (1 ≤ d2n m1 * 10 + d2n m2) && decide (d2n m1 * 10 + d2n m2 ≤ 12) &&
      decide (1 ≤ d2n d1 * 10 + d2n d2) && decide (d2n d1 * 10 + d2n d2 ≤ 31) &&
      isoTimeOk rest
  | _ => false

/-- Shallow model of `datetime.fromisoformat(s).isoformat()`: `none` exactly
when `fromisoformat` raises `ValueError`.  The canonicalisation `isoformat`
performs on success (e.g. dropping a zero fraction) is not reproduced — the
parsed string is returned unchanged; the verified claims rely only on the
success/failure behaviour. -/
def pyFromisoformatIso (s : String) : Option String :=
  if fromisoformatOk s then some s else Option.none

/-- Model of `datetime.strptime(s, "%Y-%m-%dT%H:%M:%SZ")` followed by
`strftime("%Y-%m-%d %H:%M:%S")`, as in `GitHubConnector._parse_date`:
`none` when `strptime` raises. -/
def parseGitHubDate (s : String) : Option String :=
  match s.data with
  | [y1, y2, y3, y4, '-', mo1, mo2, '-', d1, d2, 'T',
     h1, h2, ':', mi1, mi2, ':', s1, s2, 'Z'] =>
    if y1.isDigit && y2.isDigit && y3.isDigit && y4.isDigit &&
        mo1.isDigit && mo2.isDigit && d1.isDigit && d2.isDigit &&
        h1.isDigit && h2.isDigit && mi1.isDigit && mi2.isDigit &&
        s1.isDigit && s2.isDigit &&
        decide (1 ≤ d2n mo1 * 10 + d2n mo2) && decide (d2n mo1 * 10 + d2n mo2 ≤ 12) &&
        decide (1 ≤ d2n d1 * 10 + d2n d2) && decide (d2n d1 * 10 + d2n d2 ≤ 31) &&
        decide (d2n h1 * 10 + d2n h2 < 24) && decide (d2n mi1 * 10 + d2n mi2 < 60) &&
        decide (d2n s1 * 10 + d2n s2 < 60) then
      some (String.mk [y1, y2, y3, y4, '-', mo1, mo2, '-', d1, d2, ' ',
        h1, h2, ':', mi1, mi2, ':', s1, s2])
    else Option.none
  | _ => Option.none

/-- Validity of an optional exponent suffix for the `float(...)` model. -/
def floatExpOk : List Char → Bool
  | [] => true
  | e :: rest =>
    (e = 'e' || e = 'E') &&
      (let body := match rest with
        | s :: rest2 => if s = '+' || s = '-' then rest2 else rest
        | [] => []
      !body.isEmpty && body.all Char.isDigit)

/-- Validity of the unsigned mantissa (digits, with an optional point) for
the `float(...)` model. -/
def floatMantissaOk (cs : List Char) : Bool :=
  let intPart := cs.takeWhile Char.isDigit
  let rest := cs.drop intPart.length
  match rest with
  | '.' :: rest2 =>
    let frac := rest2.takeWhile Char.isDigit
    (!intPart.isEmpty || !frac.isEmpty) && floatExpOk (rest2.drop frac.length)
  | _ => !intPart.isEmpty && floatExpOk rest

/-- Shallow model of whether Python `float(s)` succeeds on a string.
`inf`/`nan` spellings and digit-group underscores are not modelled (Slack
timestamps are plain decimal strings); this affects no verified property
because the surrounding `try`/`except` swallows every failure. -/
def pyFloatParses (s : String) : Bool :=
  let cs := (s.data.dropWhile Char.isWhitespace).reverse.dropWhile Char.isWhitespace |>.reverse
  match cs with
  | sign :: rest => if sign = '+' || sign = '-' then floatMantissaOk rest else floatMantissaOk cs
  | [] => false

/-- Uninterpreted stand-in for `datetime.fromtimestamp(float(s)).isoformat()`
in `SlackConnector.process_data`.  Only the success/failure of the `float`
parse is relied on by any verified property; the rendered local-time string
is not modelled and the input is returned unchanged. -/
def fromtimestampIsoModel (s : String) : String := s

/-- The owner extraction of `DriveConnector.process_data`
(drive_connector.py line 189): `item.get('owners', [{}])[0].get('displayName',
'Unknown') if 'owners' in item else 'Unknown'` — raises `IndexError` on an
empty list, and attribute/type errors on non-list or non-dict shapes. -/
def DriveConnector.ownerOf (item : Item) : Except PyError Value :=
  match itemGet item "owners" with
  | Option.none => Except.ok (Value.str "Unknown")
  | some (Value.list (Value.dict d :: _)) =>
    Except.ok (itemGetD d "displayName" (Value.str "Unknown"))
  | some (Value.list []) => Except.error PyError.indexError
  | some (Value.list (_ :: _)) => Except.error (PyError.attributeError "get")
  | some _ => Except.error (PyError.typeError "object is not subscriptable")

/-- The `createdTime` normalisation of `DriveConnector.process_data`
(drive_connector.py lines 192–194): a truthy value is `.replace('Z',
'+00:00')`-ed and fed to `fromisoformat` (raising `ValueError` on a parse
failure and `AttributeError` on a non-string); a falsy value is kept. -/
def DriveConnector.createdOf (item : Item) : Except PyError Value :=
  let created0 := itemGetD item "createdTime" (Value.str "")
  if created0.truthy then
    match created0 with
    | Value.str s =>
      match pyFromisoformatIso (strReplace s "Z" "+00:00") with
      | some iso => Except.ok (Value.str iso)
      | Option.none => Except.error (PyError.valueError "Invalid isoformat string")
    | _ => Except.error (PyError.attributeError "replace")
  else Except.ok created0

/-- DriveConnector.process_data, body of the loop for one raw Drive record
(drive_connector.py lines 184–207). -/
def DriveConnector.processItem (item : Item) : Except PyError Item :=
  match itemGet item "id" with
  | Option.none => Except.error (PyError.keyError "id")
  | some idv =>
    match DriveConnector.ownerOf item with
    | Except.error e => Except.error e
    | Except.ok owner =>
      match DriveConnector.createdOf item with
      | Except.error e => Except.error e
      | Except.ok created =>
        Except.ok [("id", Value.str ("drive_" ++ Value.pyStr idv)),
          ("source", Value.str "Google Drive"),
          ("title", itemGetD item "name" (Value.str "Untitled")), ("owner", owner),
          ("created", created), ("type", itemGetD item "mimeType" (Value.str "unknown")),
          ("message", itemGetD item "content" (Value.str ""))]

/-- DriveConnector.process_data (drive_connector.py lines 172–209): the
loop appends one processed document per raw record; an exception raised
mid-loop aborts the whole call. -/
def DriveConnector.process_data : List Item → Except PyError (List Item)
  | [] => Except.ok []
  | item :: rest =>
    match DriveConnector.processItem item with
    | Except.error e => Except.error e
    | Except.ok d =>
      match DriveConnector.process_data rest with
      | Except.error e => Except.error e
      | Except.ok ds => Except.ok (d :: ds)

/-- Well-formedness of the `owners` field of a raw Drive record: absent, or
a non-empty list headed by a dict. -/
def DriveConnector.ownerOK (item : Item) : Bool :=
  match itemGet item "owners" with
  | Option.none => true
  | some (Value.list (Value.dict _ :: _)) => true
  | _ => false

/-- Well-formedness of the `createdTime` field of a raw Drive record: falsy,
or a string `fromisoformat` accepts after the `Z` replacement. -/
def DriveConnector.createdOK (item : Item) : Bool :=
  let ct := itemGetD item "createdTime" (Value.str "")
  if ct.truthy then
    match ct with
    | Value.str s => (pyFromisoformatIso (strReplace s "Z" "+00:00")).isSome
    | _ => false
  else true

/-- Sufficient well-formedness of one raw Drive record for
`DriveConnector.processItem` to return instead of raising. -/
def DriveConnector.recordOK (item : Item) : Bool :=
  itemHas item "id" && DriveConnector.ownerOK item && DriveConnector.createdOK item

/-- The timestamp conversion of `SlackConnector.process_data`
(slack_connector.py lines 184–192): the `try`/`except: pass` keeps the
original value whenever `float(...)`/`fromtimestamp` fails. -/
def SlackConnector.tsOf (item : Item) : Value :=
  let ts0 := itemGetD item "timestamp" (Value.str "")
  if ts0.truthy then
    match ts0 with
    | Value.str s => if pyFloatParses s then Value.str (fromtimestampIsoModel s) else ts0
    | Value.int n => Value.str (fromtimestampIsoModel (intStr n))
    | Value.float m e => Value.str (fromtimestampIsoModel (intStr m ++ "e" ++ intStr e))
    | Value.bool b => Value.str (fromtimestampIsoModel (if b then "1" else "0"))
    | _ => ts0
  else ts0

/-- SlackConnector.process_data, body of the loop for one raw Slack message
(slack_connector.py lines 179–207). -/
def SlackConnector.processItem (item : Item) : Except PyError Item :=
  match itemGet item "id" with
  | Option.none => Except.error (PyError.keyError "id")
  | some (Value.str idStr) =>
    let document : Item := [("id", Value.str ("slack_" ++ strReplace idStr "." "_")),
      ("sender", itemGetD item "sender" (Value.str "Unknown")),
      ("timestamp", SlackConnector.tsOf item),
      ("channel", itemGetD item "channel" (Value.str "Unknown")),
      ("message", itemGetD item "message" (Value.str ""))]
    match itemGet item "thread_ts" with
    | some tv =>
      if Value.beq tv (Value.str idStr) then Except.ok document
      else
        match tv with
        | Value.str s =>
          Except.ok (setKey document "thread_id" (Value.str ("slack_" ++ strReplace s "." "_")))
        | _ => Except.error (PyError.attributeError "replace")
    | Option.none => Except.ok document
  | some _ => Except.error (PyError.attributeError "replace")

/-- SlackConnector.process_data (slack_connector.py lines 167–209). -/
def SlackConnector.process_data : List Item → Except PyError (List Item)
  | [] => Except.ok []
  | item :: rest =>
    match SlackConnector.processItem item with
    | Except.error e => Except.error e
    | Except.ok d =>
      match SlackConnector.process_data rest with
      | Except.error e => Except.error e
      | Except.ok ds => Except.ok (d :: ds)

/-- Sufficient well-formedness of one raw Slack message for
`SlackConnector.processItem` to return instead of raising. -/
def SlackConnector.recordOK (item : Item) : Bool :=
  (match itemGet item "id" with
   | some (Value.str _) => true
   | _ => false) &&
  (match itemGet item "thread_ts", itemGet item "id" with
   | Option.none, _ => true
   | some tv, some idv =>
     Value.beq tv idv ||
       (match tv with
        | Value.str _ => true
        | _ => false)
   | some _, Option.none => false)

/-- GitHubConnector._parse_date (github_connector.py lines 171–179): falsy
input yields the empty string; a parse failure (including the `TypeError`
from a non-string) returns the input unchanged. -/
def GitHubConnector.parseDate (v : Value) : Value :=
  if !v.truthy then Value.str ""
  else match v with
    | Value.str s =>
      match parseGitHubDate s with
      | some out => Value.str out
      | Option.none => Value.str s
    | _ => v

/-- The repository extraction of `GitHubConnector.process_data`
(github_connector.py line 163): `item.get("name", "").split("/")[0] if "/"
in item.get("name", "") else ""` — the `in` test raises `TypeError` on a
non-iterable value, and `.split` raises `AttributeError` on an iterable
non-string containing `"/"`. -/
def GitHubConnector.repoOf (item : Item) : Except PyError String :=
  match itemGetD item "name" (Value.str "") with
  | Value.str s =>
    Except.ok (if strContains s "/" then (strSplitOn s "/").headD "" else "")
  | Value.list vs =>
    if vs.any (Value.beq (Value.str "/")) then Except.error (PyError.attributeError "split")
    else Except.ok ""
  | Value.dict kvs =>
    if itemHas kvs "/" then Except.error (PyError.attributeError "split")
    else Except.ok ""
  | _ => Except.error (PyError.typeError "argument is not iterable")

/-- GitHubConnector.process_data, body of the loop for one raw GitHub item
(github_connector.py lines 146–167).  The only operation that can raise is
the repository extraction. -/
def GitHubConnector.processItem (item : Item) : Except PyError Item :=
  match GitHubConnector.repoOf item with
  | Except.error e => Except.error e
  | Except.ok repoPart =>
    Except.ok [("id", Value.str (Value.pyStr (itemGetD item "id" (Value.str "")))),
      ("source", Value.str "github"),
      ("source_type", itemGetD item "type" (Value.str "unknown")),
      ("title", itemGetD item "name" (Value.str "")),
      ("url", itemGetD item "url" (Value.str "")),
      ("content", itemGetD item "content" (Value.str "")),
      ("created_at", GitHubConnector.parseDate (itemGetD item "created_at" (Value.str ""))),
      ("updated_at", GitHubConnector.parseDate (itemGetD item "updated_at" (Value.str ""))),
      ("metadata", Value.dict [("type", itemGetD item "type" (Value.str "")),
        ("repository", Value.str repoPart)])]

/-- GitHubConnector.process_data (github_connector.py lines 142–169). -/
def GitHubConnector.process_data : List Item → Except PyError (List Item)
  | [] => Except.ok []
  | item :: rest =>
    match GitHubConnector.processItem item with
    | Except.error e => Except.error e
    | Except.ok d =>
      match GitHubConnector.process_data rest with
      | Except.error e => Except.error e
      | Except.ok ds => Except.ok (d :: ds)

/-- Sufficient well-formedness of one raw GitHub item for
`GitHubConnector.processItem` to return instead of raising. -/
def GitHubConnector.recordOK (item : Item) : Bool :=
  match itemGet item "name" with
  | Option.none => true
  | some (Value.str _) => true
  | _ => false

/-- ConnectorInterface (connector_interface.py): a connector is its
`authenticate` outcome, the result of its `fetch_data` call (with the
keyword arguments fixed), and its `process_data` transform. -/
structure Connector where
  authenticate : Bool
  fetch_data : Except PyError (List Item)
  process_data : List Item → Except PyError (List Item)

/-- ConnectorInterface.run_pipeline (connector_interface.py lines 23–30):
raises when `authenticate()` returns false, else fetches then processes. -/
def run_pipeline (c : Connector) : Except PyError (List Item) :=
  if !c.authenticate then Except.error (PyError.exc "Authentication failed")
  else
    match c.fetch_data with
    | Except.error e => Except.error e
    | Except.ok raw => c.process_data raw

/-- The `source = item.get("source", "").lower()` step of
`process_connector_data` (process_and_embed.py line 123): raises
`AttributeError` when the `source` field holds a non-string. -/
def sourceLower (item : Item) : Except PyError String :=
  match itemGet item "source" with
  | Option.none => Except.ok ""
  | some (Value.str s) => Except.ok (lowerStr s)
  | some _ => Except.error (PyError.attributeError "lower")

/-- The source-aware display-text formatting of `process_connector_data`
(process_and_embed.py lines 125–167). -/
def formatDoc (source : String) (item : Item) : Except PyError String :=
  if source == "github" then
    match itemGet item "metadata" with
    | some (Value.dict md) =>
      Except.ok ("📚 Source: GitHub\nRepository: " ++
        Value.pyStr (itemGetD md "repository" (Value.str "")) ++ "\nTitle: " ++
        Value.pyStr (itemGetD item "title" (Value.str "")) ++ "\nURL: " ++
        Value.pyStr (itemGetD item "url" (Value.str "")) ++ "\n\nContent:\n" ++
        Value.pyStr (itemGetD item "content" (Value.str "")))
    | Option.none =>
      Except.ok ("📚 Source: GitHub\nRepository: " ++
        Value.pyStr (Value.str "") ++ "\nTitle: " ++
        Value.pyStr (itemGetD item "title" (Value.str "")) ++ "\nURL: " ++
        Value.pyStr (itemGetD item "url" (Value.str "")) ++ "\n\nContent:\n" ++
        Value.pyStr (itemGetD item "content" (Value.str "")))
    | some _ => Except.error (PyError.attributeError "get")
  else if source == "google drive" then
    Except.ok ("📂 Source: Google Drive\nTitle: " ++
      Value.pyStr (itemGetD item "title" (Value.str "Untitled")) ++ "\nOwner: " ++
      Value.pyStr (itemGetD item "owner" (Value.str "Unknown")) ++ "\nFile Type: " ++
      Value.pyStr (itemGetD item "type" (Value.str "unknown")) ++ "\nCreated: " ++
      Value.pyStr (itemGetD item "created" (Value.str "Unknown date")) ++ "\n\nContent:\n" ++
      Value.pyStr (itemGetD item "message" (Value.str "[No text extracted]")))
  else if itemHas item "message" && itemHas item "sender" then
    Except.ok ("💬 Sender: " ++
      Value.pyStr (itemGetD item "sender" (Value.str "Unknown")) ++ " in " ++
      Value.pyStr (itemGetD item "channel" (Value.str "Unknown")) ++ "\nMessage: " ++
      Value.pyStr (itemGetD item "message" Value.none))
  else if itemHas item "title" && itemHas item "message" then
    Except.ok ("Title: " ++ Value.pyStr (itemGetD item "title" Value.none) ++
      " | Owner: " ++ Value.pyStr (itemGetD item "owner" (Value.str "Unknown")) ++
      " | Content: " ++ Value.pyStr (itemGetD item "message" Value.none))
  else
    Except.ok (Value.jsonStr (Value.dict (item.filter (fun kv => kv.1 != "id"))))

/-- The metadata cleanup of `process_connector_data` (process_and_embed.py
lines 169–171): keep the scalar-valued fields, then assign the lower-cased
source tag under `"source"`. -/
def cleanMeta (source : String) (item : Item) : Item :=
  setKey (item.filter (fun kv => kv.2.isScalar)) "source" (Value.str source)

/-- One iteration of the `process_connector_data` loop (process_and_embed.py
lines 121–175): the stable id, display text, and cleaned metadata of one
processed item. -/
def formatItem (collection_name : String) (idx : Nat) (item : Item) :
    Except PyError (String × String × Item) :=
  let item_id := Value.pyStr (itemGetD item "id"
    (Value.str (collection_name ++ "_" ++ Nat.repr idx)))
  match sourceLower item with
  | Except.error e => Except.error e
  | Except.ok source =>
    match formatDoc source item with
    | Except.error e => Except.error e
    | Except.ok document => Except.ok (item_id, document, cleanMeta source item)

/-- The whole formatting loop of `process_connector_data`, with the running
`enumerate` index. -/
def buildTriplesAux (collection_name : String) :
    Nat → List Item → Except PyError (List (String × String × Item))
  | _, [] => Except.ok []
  | idx, item :: rest =>
    match formatItem collection_name idx item with
    | Except.error e => Except.error e
    | Except.ok t =>
      match buildTriplesAux collection_name (idx + 1) rest with
      | Except.error e => Except.error e
      | Except.ok ts => Except.ok (t :: ts)

/-- The `(ids, documents, metadatas)` triples `process_connector_data`
submits to the store, one per processed item. -/
def buildTriples (collection_name : String) (processed : List Item) :
    Except PyError (List (String × String × Item)) :=
  buildTriplesAux collection_name 0 processed

/-- One stored vector-store record: display text plus metadata (the
embedding vector itself carries no information the claims mention). -/
structure Entry where
  doc : String
  meta : Item

/-- A chromadb collection, as the ordered list of its (id, entry) records. -/
abbrev Collection := List (String × Entry)

/-- Does the collection already hold an entry with this id? -/
def containsId (col : Collection) (i : String) : Bool :=
  col.any (fun e => e.1 == i)

/-- Insertion pass of the store's `add`: an id already present is skipped
(the existing record is kept and a warning logged), a new id is appended. -/
def addEntries (col : Collection) : List (String × String × Item) → Collection
  | [] => col
  | (i, d, m) :: rest =>
    addEntries (if containsId col i then col else col ++ [(i, Entry.mk d m)]) rest

/-- Modelled from the vector-store client consumed at process_and_embed.py
lines 179–183 (chromadb `Collection.add`, which is not part of this
repository): ids duplicated within one request raise `DuplicateIDError`
before anything is written; an id already present in the collection is
skipped with an `Insert of existing embedding ID` warning, keeping the
existing record; fresh ids are appended.  Note `add` is not `upsert`. -/
def chromaAdd (col : Collection) (triples : List (String × String × Item)) :
    Except PyError Collection :=
  if (triples.map (fun t => t.1)).Nodup then Except.ok (addEntries col triples)
  else Except.error (PyError.valueError "DuplicateIDError")

/-- process_connector_data (process_and_embed.py lines 105–192), with the
target collection's state passed explicitly: returns the new collection
state and the reported item count.  Every exception raised inside the `try`
block (pipeline, formatting, store add) is caught and reported as count 0
with the collection unchanged. -/
def process_connector_data (c : Connector) (collection_name : String)
    (col : Collection) : Collection × Nat :=
  match run_pipeline c with
  | Except.error _ => (col, 0)
  | Except.ok processed =>
    match buildTriples collection_name processed with
    | Except.error _ => (col, 0)
    | Except.ok triples =>
      if triples.isEmpty then (col, 0)
      else
        match chromaAdd col triples with
        | Except.error _ => (col, 0)
        | Except.ok col2 => (col2, triples.length)

/-- The dictionary shape chromadb's `Collection.query` returns with the keys
`process_connector_data`'s reader requests (`documents`, `metadatas`): one
inner list per query embedding. -/
structure QueryResults where
  documents : List (List String)
  metadatas : List (List Item)

/-- The placeholder result `query_collection` substitutes on failure
(query_brain.py line 35). -/
def emptyQueryResults : QueryResults :=
  QueryResults.mk [[]] [[]]

/-- query_collection (query_brain.py lines 22–35), with the store's
behaviour for this query abstracted as a per-collection result: any
exception from `get_collection`/`query` is caught and replaced by the
empty result shape. -/
def query_collection (store : String → Except PyError QueryResults)
    (collection_name : String) : QueryResults :=
  match store collection_name with
  | Except.ok r => r
  | Except.error _ => emptyQueryResults

/-- One iteration of the `format_context` loop (query_brain.py lines 45–73):
the context block and citation string for one hit of the named collection. -/
def formatEntry (collection_name : String) (doc : String) (meta : Item) :
    Except PyError (String × String) :=
  if collection_name == "teams_chat_knowledge" then
    Except.ok ("Source: Teams Channel #" ++
      Value.pyStr (itemGetD meta "channel" (Value.str "Unknown")) ++ ", Sender: " ++
      Value.pyStr (itemGetD meta "sender" (Value.str "Unknown")) ++ "\nContent: " ++ doc,
      "Teams: Channel #" ++ Value.pyStr (itemGetD meta "channel" (Value.str "Unknown")) ++
      " (Sender: " ++ Value.pyStr (itemGetD meta "sender" (Value.str "Unknown")) ++ ")")
  else if collection_name == "jira_tickets_knowledge" then
    match
      (match itemGet meta "summary" with
       | some v =>
         if v.truthy then
           match v with
           | Value.str s => Except.ok ((strSplitOn s ".").headD "")
           | _ => Except.error (PyError.attributeError "split")
         else Except.ok "Unknown"
       | Option.none => Except.ok "Unknown") with
    | Except.error e => Except.error e
    | Except.ok summaryPart =>
      Except.ok ("Source: Jira Ticket " ++
        Value.pyStr (itemGetD meta "key" (Value.str "Unknown")) ++ " (" ++
        Value.pyStr (itemGetD meta "status" (Value.str "Unknown")) ++ ")\nContent: " ++ doc,
        "Jira: " ++ Value.pyStr (itemGetD meta "key" (Value.str "Unknown")) ++
        " (" ++ summaryPart ++ ")")
  else if collection_name == "slack_messages_knowledge" then
    Except.ok ("Source: Slack Channel #" ++
      Value.pyStr (itemGetD meta "channel" (Value.str "Unknown")) ++ ", Sender: " ++
      Value.pyStr (itemGetD meta "sender" (Value.str "Unknown")) ++ "\nContent: " ++ doc,
      "Slack: Channel #" ++ Value.pyStr (itemGetD meta "channel" (Value.str "Unknown")) ++
      " (Sender: " ++ Value.pyStr (itemGetD meta "sender" (Value.str "Unknown")) ++ ")")
  else if collection_name == "drive_documents_knowledge" then
    Except.ok ("Source: Google Drive Document \x27" ++
      Value.pyStr (itemGetD meta "title" (Value.str "Unknown")) ++ "\x27, Owner: " ++
      Value.pyStr (itemGetD meta "owner" (Value.str "Unknown")) ++ "\nContent: " ++ doc,
      "Drive: " ++ Value.pyStr (itemGetD meta "title" (Value.str "Unknown")) ++
      " (Owner: " ++ Value.pyStr (itemGetD meta "owner" (Value.str "Unknown")) ++ ")")
  else if collection_name == "github_knowledge" then
    match itemGet meta "type" with
    | some (Value.str t) =>
      if t == "issue" || t == "pull_request" then
        let tdisp := pyTitle (strReplace t "_" " ")
        match
          (match itemGet meta "title" with
           | some w =>
             if w.truthy then
               match w with
               | Value.str s => Except.ok ((strSplitOn s " - ").headD "")
               | _ => Except.error (PyError.attributeError "split")
             else Except.ok "Unknown"
           | Option.none => Except.ok "Unknown") with
        | Except.error e => Except.error e
        | Except.ok titlePart =>
          Except.ok ("Source: GitHub " ++ tdisp ++ " \x27" ++
            Value.pyStr (itemGetD meta "title" (Value.str "Unknown")) ++ "\x27\nContent: " ++ doc,
            "GitHub: " ++ tdisp ++ " #" ++ titlePart)
      else
        Except.ok ("Source: GitHub Repository Item\nContent: " ++ doc,
          "GitHub: " ++ Value.pyStr (Value.dict meta))
    | _ =>
      Except.ok ("Source: GitHub Repository Item\nContent: " ++ doc,
        "GitHub: " ++ Value.pyStr (Value.dict meta))
  else
    Except.ok ("Source: " ++ pyTitle (strReplace collection_name "_knowledge" "") ++
      "\nContent: " ++ doc,
      pyTitle (strReplace collection_name "_knowledge" "") ++ ": " ++
      Value.pyStr (itemGetD meta "id" (Value.str "Unknown")))

/-- The `format_context` loop over `zip(documents[0], metadatas[0])`. -/
def formatHits (collection_name : String) :
    List (String × Item) → Except PyError (List String × List String)
  | [] => Except.ok ([], [])
  | (doc, meta) :: rest =>
    match formatEntry collection_name doc meta with
    | Except.error e => Except.error e
    | Except.ok (c, s) =>
      match formatHits collection_name rest with
      | Except.error e => Except.error e
      | Except.ok (cs, ss) => Except.ok (c :: cs, s :: ss)

/-- format_context (query_brain.py lines 37–75): the `[0]` indexing raises
`IndexError` on an empty outer list; an empty first document list returns
two empty lists before `metadatas` is touched. -/
def format_context (results : QueryResults) (collection_name : String) :
    Except PyError (List String × List String) :=
  match results.documents with
  | [] => Except.error PyError.indexError
  | d0 :: _ =>
    if d0.isEmpty then Except.ok ([], [])
    else
      match results.metadatas with
      | [] => Except.error PyError.indexError
      | m0 :: _ => formatHits collection_name (d0.zip m0)

/-- The per-collection query loop of `main` (query_brain.py lines 122–131):
query each collection, format, and extend the accumulated context and
source lists.  An exception from `format_context` propagates (it is not
caught in `main`); store exceptions never reach this level because
`query_collection` swallows them. -/
def fanOut (store : String → Except PyError QueryResults) :
    List String → Except PyError (List String × List String)
  | [] => Except.ok ([], [])
  | cname :: rest =>
    match format_context (query_collection store cname) cname with
    | Except.error e => Except.error e
    | Except.ok (ctx, srcs) =>
      match fanOut store rest with
      | Except.error e => Except.error e
      | Except.ok (restCtx, restSrcs) => Except.ok (ctx ++ restCtx, srcs ++ restSrcs)

/-- First value bound to the key, or the default (`table.get(k, d)`). -/
def lookupD (table : List (String × String)) (key dflt : String) : String :=
  match table with
  | [] => dflt
  | (k, v) :: rest => if k == key then v else lookupD rest key dflt

/-- The fixed short-name → collection-name table of `main`
(query_brain.py lines 111–117). -/
def sourceMap : List (String × String) :=
  [("teams", "teams_chat_knowledge"), ("jira", "jira_tickets_knowledge"),
   ("slack", "slack_messages_knowledge"), ("drive", "drive_documents_knowledge"),
   ("github", "github_knowledge")]

/-- The recognised short names of `main` (query_brain.py line 94). -/
def validSources : List String :=
  ["teams", "jira", "slack", "drive", "github"]

/-- The short names `main` prints a warning for (query_brain.py lines
95–97): exactly those not in `validSources`.  The input list is already
lower-cased, as at line 93. -/
def warnedSources (sources : List String) : List String :=
  sources.filter (fun s => !(validSources.contains s))

/-- The collection resolution of `main` (query_brain.py lines 109–120): an
empty (falsy) source list selects every available collection; otherwise
each name is mapped through `sourceMap` with the raw name as fallback and
kept only when the mapped name is an available collection.  The input list
is already lower-cased. -/
def resolve_sources (sources availableCollections : List String) : List String :=
  if sources.isEmpty then availableCollections
  else
    sources.filterMap (fun s =>
      let t := lookupD sourceMap s s
      if availableCollections.contains t then some t else Option.none)

/-- The generation prompt of `main` (query_brain.py lines 141–150), as a
function of the question and the joined context string. -/
def buildPrompt (question contextString : String) : String :=
  "\n            You are an AI knowledge platform (Memory Box) that answers technical questions based only on the provided context, which comes from company knowledge sources.\n            Synthesize a clear, single answer. DO NOT mention the confidence score.\n            Always summarize the sources used at the end of your answer.\n\n            CONTEXT (Knowledge Sources):\n            " ++
    contextString ++ "\n\n            Question: " ++ question ++ "\n        "

/-- Observable outcome of one query iteration of `main`: the short-circuit
message, a generation call with its prompt, or an uncaught exception. -/
inductive QueryOutcome where
  | noInfo
  | answered (prompt : String)
  | failed (e : PyError)
deriving DecidableEq, Repr

/-- The tail of one `main` iteration (query_brain.py lines 122–154): fan
out, then either report "No relevant information found in any knowledge
source." and return without generating, or join the context with the
visible delimiter and call the generative model. -/
def run_query (store : String → Except PyError QueryResults)
    (collections : List String) (question : String) : QueryOutcome :=
  match fanOut store collections with
  | Except.error e => QueryOutcome.failed e
  | Except.ok (allContext, _) =>
    if allContext.isEmpty then QueryOutcome.noInfo
    else QueryOutcome.answered (buildPrompt question (joinSep "\n\n---\n\n" allContext))

/-! ### Helper lemmas -/

theorem buildTriplesAux_ok_length (name : String) :
    ∀ (l : List Item) (idx : Nat) (ts : List (String × String × Item)),
      buildTriplesAux name idx l = Except.ok ts → ts.length = l.length := by
  intro l
  induction l with
  | nil =>
    intro idx ts h
    have h2 : (Except.ok [] : Except PyError (List (String × String × Item)))
        = Except.ok ts := h
    cases h2
    rfl
  | cons item rest ih =>
    intro idx ts h
    simp only [buildTriplesAux] at h
    cases hf : formatItem name idx item with
    | error e => rw [hf] at h; cases h
    | ok t =>
      rw [hf] at h
      cases hr : buildTriplesAux name (idx + 1) rest with
      | error e => rw [hr] at h; cases h
      | ok ts2 =>
        rw [hr] at h
        cases h
        simp [ih (idx + 1) ts2 hr]

theorem buildTriples_ok_length (name : String) (l : List Item)
    (ts : List (String × String × Item)) (h : buildTriples name l = Except.ok ts) :
    ts.length = l.length :=
  buildTriplesAux_ok_length name l 0 ts h

theorem containsId_append_single (col : Collection) (j : String) (e : Entry) (i : String) :
    containsId (col ++ [(j, e)]) i = (containsId col i || (j == i)) := by
  simp [containsId, List.any_append]

theorem addEntries_fresh_length :
    ∀ (ts : List (String × String × Item)) (col : Collection),
      (ts.map (fun t => t.1)).Nodup →
      (∀ t ∈ ts, containsId col t.1 = false) →
      (addEntries col ts).length = col.length + ts.length := by
  intro ts
  induction ts with
  | nil => intro col _ _; simp [addEntries]
  | cons t rest ih =>
    intro col hnd hfresh
    obtain ⟨i, d, m⟩ := t
    simp only [addEntries]
    rw [hfresh (i, d, m) (List.mem_cons_self _ _)]
    simp only [Bool.false_eq_true, if_false]
    have hnd2 : (rest.map (fun t => t.1)).Nodup := (List.nodup_cons.mp hnd).2
    have hni : i ∉ rest.map (fun t => t.1) := (List.nodup_cons.mp hnd).1
    have hfresh2 : ∀ u ∈ rest, containsId (col ++ [(i, Entry.mk d m)]) u.1 = false := by
      intro u hu
      rw [containsId_append_single]
      have h1 : containsId col u.1 = false := hfresh u (List.mem_cons_of_mem _ hu)
      have h2 : (i == u.1) = false := by
        apply beq_eq_false_iff_ne.mpr
        intro hcontra
        exact hni (hcontra ▸ List.mem_map_of_mem (fun t => t.1) hu)
      rw [h1, h2]
      rfl
    rw [ih (col ++ [(i, Entry.mk d m)]) hnd2 hfresh2]
    simp
    omega

theorem itemGet_eq_none_of_not_mem (l : Item) (k : String)
    (h : k ∉ l.map Prod.fst) : itemGet l k = Option.none := by
  induction l with
  | nil => rfl
  | cons kv rest ih =>
    obtain ⟨k0, v0⟩ := kv
    simp only [List.map_cons, List.mem_cons] at h
    push_neg at h
    simp only [itemGet]
    rw [if_neg (by simp; exact fun hc => h.1 hc.symm)]
    exact ih h.2

theorem itemGet_filter_val (p : Value → Bool) (l : Item)
    (hnd : (l.map Prod.fst).Nodup) (k : String) :
    itemGet (l.filter (fun kv => p kv.2)) k
      = (itemGet l k).bind (fun v => if p v then some v else Option.none) := by
  induction l with
  | nil => rfl
  | cons kv rest ih =>
    obtain ⟨k0, v0⟩ := kv
    have hnd2 : (rest.map Prod.fst).Nodup := (List.nodup_cons.mp hnd).2
    have hni : k0 ∉ rest.map Prod.fst := (List.nodup_cons.mp hnd).1
    by_cases hk : k0 = k
    · subst hk
      by_cases hp : p v0 = true
      · simp [itemGet, hp, List.filter]
      · have hrest : itemGet rest k0 = Option.none := itemGet_eq_none_of_not_mem rest k0 hni
        have hrestf : itemGet (rest.filter (fun kv => p kv.2)) k0 = Option.none := by
          rw [ih hnd2, hrest]
          rfl
        rw [Bool.not_eq_true] at hp
        simp [List.filter, hp, itemGet, hrestf]
    · have hne : (k0 == k) = false := beq_eq_false_iff_ne.mpr hk
      by_cases hp : p v0 = true
      · simp only [List.filter, hp, itemGet, hne]
        simp only [Bool.false_eq_true, if_false]
        exact ih hnd2
      · rw [Bool.not_eq_true] at hp
        simp only [List.filter, hp, itemGet, hne]
        simp only [Bool.false_eq_true, if_false]
        exact ih hnd2

theorem itemGet_setKey_self : ∀ (l : Item) (k : String) (v : Value),
    itemGet (setKey l k v) k = some v := by
  intro l
  induction l with
  | nil => intro k v; simp [setKey, itemGet]
  | cons kv rest ih =>
    intro k v
    obtain ⟨k0, w⟩ := kv
    by_cases hk : k0 = k
    · subst hk
      simp [setKey, itemGet]
    · have hne : (k0 == k) = false := beq_eq_false_iff_ne.mpr hk
      simp [setKey, itemGet, hne, ih]

theorem itemGet_setKey_ne : ∀ (l : Item) (k k2 : String) (v : Value), k2 ≠ k →
    itemGet (setKey l k v) k2 = itemGet l k2 := by
  intro l
  induction l with
  | nil =>
    intro k k2 v hne
    simp [setKey, itemGet, beq_eq_false_iff_ne.mpr (fun h => hne h.symm)]
  | cons kv rest ih =>
    intro k k2 v hne
    obtain ⟨k0, w⟩ := kv
    by_cases hk : k0 = k
    · subst hk
      have h2 : (k0 == k2) = false := beq_eq_false_iff_ne.mpr (fun h => hne h.symm)
      simp [setKey, itemGet, h2]
    · have h0 : (k0 == k) = false := beq_eq_false_iff_ne.mpr hk
      by_cases h2 : k0 = k2
      · subst h2
        simp [setKey, itemGet, h0]
      · simp [setKey, itemGet, h0, beq_eq_false_iff_ne.mpr h2, ih _ _ _ hne]

theorem formatHits_ok (cname : String) :
    ∀ (hits : List (String × Item)),
      (∀ h ∈ hits, (formatEntry cname h.1 h.2).isOk = true) →
      ∃ cs ss, formatHits cname hits = Except.ok (cs, ss) ∧
        cs.length = hits.length ∧ ss.length = hits.length := by
  intro hits
  induction hits with
  | nil => intro _; exact ⟨[], [], rfl, rfl, rfl⟩
  | cons h rest ih =>
    intro hok
    obtain ⟨doc, meta⟩ := h
    have h1 := hok (doc, meta) (List.mem_cons_self _ _)
    cases hfe : formatEntry cname doc meta with
    | error e => rw [hfe] at h1; cases h1
    | ok p =>
      obtain ⟨c, s⟩ := p
      obtain ⟨cs, ss, hr, hc, hs⟩ := ih (fun u hu => hok u (List.mem_cons_of_mem _ hu))
      refine ⟨c :: cs, s :: ss, ?_, by simp [hc], by simp [hs]⟩
      simp only [formatHits, hfe, hr]

theorem fanOut_all_empty (store : String → Except PyError QueryResults) :
    ∀ (cols : List String),
      (∀ c ∈ cols, format_context (query_collection store c) c = Except.ok ([], [])) →
      fanOut store cols = Except.ok ([], []) := by
  intro cols
  induction cols with
  | nil => intro _; rfl
  | cons c rest ih =>
    intro h
    have h1 := h c (List.mem_cons_self _ _)
    have h2 := ih (fun u hu => h u (List.mem_cons_of_mem _ hu))
    simp only [fanOut, h1, h2]
    rfl

theorem DriveConnector.ownerOf_ok (item : Item)
    (h : DriveConnector.ownerOK item = true) :
    ∃ w, DriveConnector.ownerOf item = Except.ok w := by
  simp only [DriveConnector.ownerOK] at h
  cases hg : itemGet item "owners" with
  | none => exact ⟨Value.str "Unknown", by simp [DriveConnector.ownerOf, hg]⟩
  | some v =>
    rw [hg] at h
    cases v with
    | str s => simp at h
    | int n => simp at h
    | float m e => simp at h
    | bool b => simp at h
    | none => simp at h
    | dict kvs => simp at h
    | list vs =>
      cases vs with
      | nil => simp at h
      | cons hd tl =>
        cases hd with
        | dict d =>
          exact ⟨itemGetD d "displayName" (Value.str "Unknown"),
            by simp [DriveConnector.ownerOf, hg]⟩
        | str s => simp at h
        | int n => simp at h
        | float m e => simp at h
        | bool b => simp at h
        | none => simp at h
        | list l => simp at h

theorem DriveConnector.createdOf_ok (item : Item)
    (h : DriveConnector.createdOK item = true) :
    ∃ w, DriveConnector.createdOf item = Except.ok w := by
  simp only [DriveConnector.createdOK] at h
  simp only [DriveConnector.createdOf]
  cases hv : itemGetD item "createdTime" (Value.str "") with
  | str s =>
    rw [hv] at h
    by_cases ht : (Value.str s).truthy = true
    · rw [if_pos ht] at h ⊢
      have h2 : (pyFromisoformatIso (strReplace s "Z" "+00:00")).isSome = true := h
      cases hp : pyFromisoformatIso (strReplace s "Z" "+00:00") with
      | none => rw [hp] at h2; simp at h2
      | some iso =>
        refine ⟨Value.str iso, ?_⟩
        show (match pyFromisoformatIso (strReplace s "Z" "+00:00") with
          | some iso => Except.ok (Value.str iso)
          | Option.none => Except.error (PyError.valueError "Invalid isoformat string"))
          = Except.ok (Value.str iso)
        rw [hp]
    · rw [if_neg ht]
      exact ⟨Value.str s, rfl⟩
  | int n =>
    rw [hv] at h
    by_cases ht : (Value.int n).truthy = true
    · rw [if_pos ht] at h; simp at h
    · rw [if_neg ht]; exact ⟨Value.int n, rfl⟩
  | float m e =>
    rw [hv] at h
    by_cases ht : (Value.float m e).truthy = true
    · rw [if_pos ht] at h; simp at h
    · rw [if_neg ht]; exact ⟨Value.float m e, rfl⟩
  | bool b =>
    rw [hv] at h
    by_cases ht : (Value.bool b).truthy = true
    · rw [if_pos ht] at h; simp at h
    · rw [if_neg ht]; exact ⟨Value.bool b, rfl⟩
  | none =>
    rw [hv] at h
    by_cases ht : (Value.none).truthy = true
    · rw [if_pos ht] at h; simp at h
    · rw [if_neg ht]; exact ⟨Value.none, rfl⟩
  | list vs =>
    rw [hv] at h
    by_cases ht : (Value.list vs).truthy = true
    · rw [if_pos ht] at h; simp at h
    · rw [if_neg ht]; exact ⟨Value.list vs, rfl⟩
  | dict kvs =>
    rw [hv] at h
    by_cases ht : (Value.dict kvs).truthy = true
    · rw [if_pos ht] at h; simp at h
    · rw [if_neg ht]; exact ⟨Value.dict kvs, rfl⟩

theorem driveProcessItem_ok (item : Item)
    (h : DriveConnector.recordOK item = true) :
    ∃ d, DriveConnector.processItem item = Except.ok d := by
  simp only [DriveConnector.recordOK, Bool.and_eq_true] at h
  obtain ⟨⟨hid, how⟩, hct⟩ := h
  obtain ⟨w, hw⟩ := DriveConnector.ownerOf_ok item how
  obtain ⟨cr, hcr⟩ := DriveConnector.createdOf_ok item hct
  cases hg : itemGet item "id" with
  | none => simp [itemHas, hg] at hid
  | some idv =>
    exact ⟨_, by simp only [DriveConnector.processItem, hg, hw, hcr]; rfl⟩

theorem slackProcessItem_ok (item : Item)
    (h : SlackConnector.recordOK item = true) :
    ∃ d, SlackConnector.processItem item = Except.ok d := by
  simp only [SlackConnector.recordOK, Bool.and_eq_true] at h
  obtain ⟨hid, hth⟩ := h
  cases hg : itemGet item "id" with
  | none => rw [hg] at hid; simp at hid
  | some idv =>
    rw [hg] at hid hth
    cases idv with
    | int n => simp at hid
    | float m e => simp at hid
    | bool b => simp at hid
    | none => simp at hid
    | list l => simp at hid
    | dict k => simp at hid
    | str s =>
      cases hgt : itemGet item "thread_ts" with
      | none => exact ⟨_, by simp only [SlackConnector.processItem, hg, hgt]; rfl⟩
      | some tv =>
        rw [hgt] at hth
        by_cases hbeq : Value.beq tv (Value.str s) = true
        · exact ⟨_, by simp only [SlackConnector.processItem, hg, hgt, hbeq, if_true]; rfl⟩
        · simp only [Bool.or_eq_true] at hth
          cases hth with
          | inl hc => exact absurd hc hbeq
          | inr hstr =>
            cases tv with
            | str t =>
              refine ⟨setKey [("id", Value.str ("slack_" ++ strReplace s "." "_")),
                ("sender", itemGetD item "sender" (Value.str "Unknown")),
                ("timestamp", SlackConnector.tsOf item),
                ("channel", itemGetD item "channel" (Value.str "Unknown")),
                ("message", itemGetD item "message" (Value.str ""))]
                "thread_id" (Value.str ("slack_" ++ strReplace t "." "_")), ?_⟩
              simp only [SlackConnector.processItem, hg, hgt]
              rw [if_neg hbeq]
            | int n => simp at hstr
            | float m e => simp at hstr
            | bool b => simp at hstr
            | none => simp at hstr
            | list l => simp at hstr
            | dict k => simp at hstr

theorem GitHubConnector.repoOf_ok (item : Item)
    (h : GitHubConnector.recordOK item = true) :
    ∃ r, GitHubConnector.repoOf item = Except.ok r := by
  simp only [GitHubConnector.recordOK] at h
  cases hg : itemGet item "name" with
  | none => exact ⟨_, by simp [GitHubConnector.repoOf, itemGetD, hg]; rfl⟩
  | some v =>
    rw [hg] at h
    cases v with
    | str s => exact ⟨_, by simp [GitHubConnector.repoOf, itemGetD, hg]; rfl⟩
    | int n => simp at h
    | float m e => simp at h
    | bool b => simp at h
    | none => simp at h
    | list l => simp at h
    | dict k => simp at h

theorem githubProcessItem_ok (item : Item)
    (h : GitHubConnector.recordOK item = true) :
    ∃ d, GitHubConnector.processItem item = Except.ok d := by
  obtain ⟨r, hr⟩ := GitHubConnector.repoOf_ok item h
  exact ⟨_, by simp only [GitHubConnector.processItem, hr]; rfl⟩

theorem driveProcessData_ok :
    ∀ (data : List Item), (∀ item ∈ data, DriveConnector.recordOK item = true) →
      ∃ out, DriveConnector.process_data data = Except.ok out ∧ out.length = data.length := by
  intro data
  induction data with
  | nil => intro _; exact ⟨[], rfl, rfl⟩
  | cons item rest ih =>
    intro h
    obtain ⟨d, hd⟩ := driveProcessItem_ok item (h item (List.mem_cons_self _ _))
    obtain ⟨out, hout, hlen⟩ := ih (fun u hu => h u (List.mem_cons_of_mem _ hu))
    exact ⟨d :: out, by simp only [DriveConnector.process_data, hd, hout], by simp [hlen]⟩

theorem slackProcessData_ok :
    ∀ (data : List Item), (∀ item ∈ data, SlackConnector.recordOK item = true) →
      ∃ out, SlackConnector.process_data data = Except.ok out ∧ out.length = data.length := by
  intro data
  induction data with
  | nil => intro _; exact ⟨[], rfl, rfl⟩
  | cons item rest ih =>
    intro h
    obtain ⟨d, hd⟩ := slackProcessItem_ok item (h item (List.mem_cons_self _ _))
    obtain ⟨out, hout, hlen⟩ := ih (fun u hu => h u (List.mem_cons_of_mem _ hu))
    exact ⟨d :: out, by simp only [SlackConnector.process_data, hd, hout], by simp [hlen]⟩

theorem githubProcessData_ok :
    ∀ (data : List Item), (∀ item ∈ data, GitHubConnector.recordOK item = true) →
      ∃ out, GitHubConnector.process_data data = Except.ok out ∧ out.length = data.length := by
  intro data
  induction data with
  | nil => intro _; exact ⟨[], rfl, rfl⟩
  | cons item rest ih =>
    intro h
    obtain ⟨d, hd⟩ := githubProcessItem_ok item (h item (List.mem_cons_self _ _))
    obtain ⟨out, hout, hlen⟩ := ih (fun u hu => h u (List.mem_cons_of_mem _ hu))
    exact ⟨d :: out, by simp only [GitHubConnector.process_data, hd, hout], by simp [hlen]⟩

/-! ### Claims -/

/-- First ingested version of the document used to probe upsert semantics. -/
def c1ItemA : Item := [("id", Value.str "gh-1"), ("source", Value.str "github"),
  ("title", Value.str "v1"), ("content", Value.str "a")]

/-- Second, modified version carrying the same id. -/
def c1ItemB : Item := [("id", Value.str "gh-1"), ("source", Value.str "github"),
  ("title", Value.str "v2"), ("content", Value.str "b")]

/-- Connector returning the first version. -/
def c1ConnA : Connector := Connector.mk true (Except.ok [c1ItemA]) (fun d => Except.ok d)

/-- Connector returning the modified version. -/
def c1ConnB : Connector := Connector.mk true (Except.ok [c1ItemB]) (fun d => Except.ok d)

/-- Display text stored for the first version. -/
def c1DocA : String :=
  "📚 Source: GitHub\nRepository: \nTitle: v1\nURL: \n\nContent:\na"

/-- Display text the second version would store. -/
def c1DocB : String :=
  "📚 Source: GitHub\nRepository: \nTitle: v2\nURL: \n\nContent:\nb"

/-- Claim C1, counterexample: ingesting the same id twice via
`process_connector_data` does NOT overwrite — the second ingest leaves the
collection exactly as the first left it, although the display text the
second Document would store differs, so last-write-wins upsert semantics
fails (the store's `add` keeps the existing record). -/
theorem C1_upsert_counterexample :
    (process_connector_data c1ConnB "github_knowledge"
        (process_connector_data c1ConnA "github_knowledge" []).1).1
      = (process_connector_data c1ConnA "github_knowledge" []).1 ∧
    ((process_connector_data c1ConnA "github_knowledge" []).1.map (fun e => e.2.doc))
      ≠ ((process_connector_data c1ConnB "github_knowledge" []).1.map (fun e => e.2.doc)) :=
  ⟨rfl, by decide⟩

/-- Claim C1 (amended): ingesting one Document twice with the same id leaves
exactly one entry for that id and neither call fails (both report count 1),
but the entry kept is the FIRST ingest's display text and metadata — the
store's `add` skips an existing id — i.e. first-write-wins, not
last-write-wins. -/
theorem C1_upsert_amended (c1 c2 : Connector) (name : String)
    (items1 items2 : List Item) (t1 t2 : String × String × Item)
    (h1 : run_pipeline c1 = Except.ok items1)
    (hb1 : buildTriples name items1 = Except.ok [t1])
    (h2 : run_pipeline c2 = Except.ok items2)
    (hb2 : buildTriples name items2 = Except.ok [t2])
    (hid : t2.1 = t1.1) :
    process_connector_data c1 name [] = ([(t1.1, Entry.mk t1.2.1 t1.2.2)], 1) ∧
    process_connector_data c2 name [(t1.1, Entry.mk t1.2.1 t1.2.2)]
      = ([(t1.1, Entry.mk t1.2.1 t1.2.2)], 1) := by
  obtain ⟨i1, d1, m1⟩ := t1
  obtain ⟨i2, d2, m2⟩ := t2
  have hid2 : i2 = i1 := hid
  subst hid2
  constructor
  · simp only [process_connector_data, h1, hb1, chromaAdd]
    simp [addEntries, containsId]
  · simp only [process_connector_data, h2, hb2, chromaAdd]
    simp [addEntries, containsId]

/-- Claim C1 (amended), witness at the concrete double ingest. -/
theorem C1_upsert_amended_witness :
    process_connector_data c1ConnA "github_knowledge" []
      = ([("gh-1", Entry.mk c1DocA c1ItemA)], 1) ∧
    process_connector_data c1ConnB "github_knowledge" [("gh-1", Entry.mk c1DocA c1ItemA)]
      = ([("gh-1", Entry.mk c1DocA c1ItemA)], 1) :=
  C1_upsert_amended c1ConnA c1ConnB "github_knowledge" [c1ItemA] [c1ItemB]
    ("gh-1", c1DocA, c1ItemA) ("gh-1", c1DocB, c1ItemB) rfl rfl rfl rfl rfl

/-- Claim C2, counterexample: a connector's normalize step CAN raise —
`DriveConnector.process_data` on one record whose `createdTime` does not
parse aborts the whole batch with a `ValueError` instead of capturing the
failure as a placeholder body. -/
theorem C2_normalize_counterexample :
    DriveConnector.process_data [[("id", Value.str "f1"), ("createdTime", Value.str "not-a-date")]]
      = Except.error (PyError.valueError "Invalid isoformat string") := rfl

/-- Claim C2 (amended): each connector's `process_data` returns exactly one
Document per input record and raises no error provided every record is
well-formed for that connector (Drive: has an `id`, `owners` absent or a
non-empty dict-headed list, `createdTime` falsy or parseable; Slack: string
`id`, and `thread_ts`, when present and different from the id, a string;
GitHub: `name` absent or a string); on malformed records `process_data` can
raise, and the per-record placeholder capture (`"[Error extracting content:
…]"`) happens in Drive's fetch step, not in `process_data`. -/
theorem C2_normalize_amended :
    (∀ data, (∀ item ∈ data, DriveConnector.recordOK item = true) →
      ∃ out, DriveConnector.process_data data = Except.ok out ∧ out.length = data.length) ∧
    (∀ data, (∀ item ∈ data, SlackConnector.recordOK item = true) →
      ∃ out, SlackConnector.process_data data = Except.ok out ∧ out.length = data.length) ∧
    (∀ data, (∀ item ∈ data, GitHubConnector.recordOK item = true) →
      ∃ out, GitHubConnector.process_data data = Except.ok out ∧ out.length = data.length) :=
  ⟨driveProcessData_ok, slackProcessData_ok,
    githubProcessData_ok⟩

/-- Well-formed Drive record used by the C2 witness. -/
def c2DriveItem : Item := [("id", Value.str "f2"), ("name", Value.str "Doc"),
  ("createdTime", Value.str "2023-05-01T12:00:00.000+00:00"),
  ("owners", Value.list [Value.dict [("displayName", Value.str "Ann")]]),
  ("mimeType", Value.str "application/pdf"), ("content", Value.str "x")]

/-- Well-formed Slack record used by the C2 witness. -/
def c2SlackItem : Item := [("id", Value.str "1629471261.000200"),
  ("sender", Value.str "u"), ("timestamp", Value.str "1629471261.000200"),
  ("channel", Value.str "general"), ("message", Value.str "")]

/-- Well-formed GitHub record used by the C2 witness. -/
def c2GitHubItem : Item := [("id", Value.int 7), ("type", Value.str "issue"),
  ("name", Value.str "owner/repo"), ("created_at", Value.str "2023-01-02T03:04:05Z")]

/-- Claim C2 (amended), witness: one well-formed record through each
connector's normalize step. -/
theorem C2_normalize_amended_witness :
    (∃ out, DriveConnector.process_data [c2DriveItem] = Except.ok out ∧ out.length = 1) ∧
    (∃ out, SlackConnector.process_data [c2SlackItem] = Except.ok out ∧ out.length = 1) ∧
    (∃ out, GitHubConnector.process_data [c2GitHubItem] = Except.ok out ∧ out.length = 1) :=
  ⟨C2_normalize_amended.1 [c2DriveItem] (by decide),
    C2_normalize_amended.2.1 [c2SlackItem] (by decide),
    C2_normalize_amended.2.2 [c2GitHubItem] (by decide)⟩

/-- Claim C3: every exception inside `process_connector_data`'s `try` block
— a pipeline failure (fetch or normalize raising, or `run_pipeline` raising
because `authenticate()` returned false) or a formatting failure — is
caught and surfaces as count 0 with the collection unchanged; nothing
propagates to the caller. -/
theorem C3_ingest_error_isolation (c : Connector) (name : String) (col : Collection)
    (h : (run_pipeline c).isOk = false ∨ c.authenticate = false ∨
      ∃ processed, run_pipeline c = Except.ok processed ∧
        (buildTriples name processed).isOk = false) :
    process_connector_data c name col = (col, 0) := by
  rcases h with h1 | h2 | ⟨processed, hp, hb⟩
  · cases hr : run_pipeline c with
    | error e => simp [process_connector_data, hr]
    | ok l => rw [hr] at h1; simp [Except.isOk, Except.toBool] at h1
  · have hr : run_pipeline c = Except.error (PyError.exc "Authentication failed") := by
      simp [run_pipeline, h2]
    simp [process_connector_data, hr]
  · cases hb2 : buildTriples name processed with
    | error e => simp [process_connector_data, hp, hb2]
    | ok ts => rw [hb2] at hb; simp [Except.isOk, Except.toBool] at hb

/-- Connector whose `authenticate` returns false, as in end-to-end
scenario C. -/
def c3Conn : Connector := Connector.mk false (Except.ok []) (fun d => Except.ok d)

/-- Claim C3, witness: a connector with failed authentication yields count 0
and an unchanged collection. -/
theorem C3_ingest_error_isolation_witness :
    process_connector_data c3Conn "drive_documents_knowledge" [] = ([], 0) :=
  C3_ingest_error_isolation c3Conn "drive_documents_knowledge" [] (Or.inr (Or.inl rfl))

/-- Claim C4: if the store raises on one collection, `query_collection`
catches it and yields the empty result shape, and the whole fan-out behaves
exactly as if that collection had returned no hits — every other
collection's query still runs and its hits still reach the fused context;
one collection's failure is never a global failure. -/
theorem C4_fanout_fault_isolation (store : String → Except PyError QueryResults)
    (cols : List String) (bad : String) (e : PyError)
    (hbad : store bad = Except.error e) :
    query_collection store bad = emptyQueryResults ∧
    fanOut store cols
      = fanOut (fun c => if c = bad then Except.ok emptyQueryResults else store c) cols := by
  constructor
  · simp [query_collection, hbad]
  · induction cols with
    | nil => rfl
    | cons c rest ih =>
      have hq : query_collection (fun c => if c = bad then Except.ok emptyQueryResults else store c) c
          = query_collection store c := by
        by_cases hc : c = bad
        · subst hc
          simp [query_collection, hbad]
        · simp [query_collection, hc]
      simp only [fanOut, hq, ih]

/-- Store used by the C4 witness: one healthy collection, one that raises. -/
def c4Store : String → Except PyError QueryResults := fun c =>
  if c = "bad_collection" then Except.error (PyError.exc "boom")
  else Except.ok (QueryResults.mk [["some doc"]]
    [[[("channel", Value.str "general"), ("sender", Value.str "u")]]])

/-- Claim C4, witness: the fan-out over a healthy collection plus a raising
one equals the fan-out where the raising one returns no hits. -/
theorem C4_fanout_fault_isolation_witness :
    query_collection c4Store "bad_collection" = emptyQueryResults ∧
    fanOut c4Store ["teams_chat_knowledge", "bad_collection"]
      = fanOut (fun c => if c = "bad_collection" then Except.ok emptyQueryResults
          else c4Store c) ["teams_chat_knowledge", "bad_collection"] :=
  C4_fanout_fault_isolation c4Store ["teams_chat_knowledge", "bad_collection"]
    "bad_collection" (PyError.exc "boom") rfl

/-- Claim C5, counterexample: an unrecognized short name is warned about but
is NOT always excluded from the queried set — `source_map.get(s, s)` falls
back to the raw name, so a name outside the table that itself names an
available collection is queried ("foo" here). -/
theorem C5_source_resolution_counterexample :
    validSources.contains "foo" = false ∧
    warnedSources ["foo"] = ["foo"] ∧
    resolve_sources ["foo"] ["foo"] = ["foo"] := by decide

/-- Claim C5 (amended): resolution never raises (it is a total function);
an empty source list resolves to all registered collections; every name
outside the fixed table is warned about; every queried collection is a
registered one; and an unrecognized name is excluded unless it itself names
a registered collection, in which case it is queried. -/
theorem C5_source_resolution_amended :
    (∀ avail, resolve_sources [] avail = avail) ∧
    (∀ sources s, s ∈ sources → validSources.contains s = false →
      s ∈ warnedSources sources) ∧
    (∀ sources avail t, t ∈ resolve_sources sources avail → t ∈ avail) ∧
    (∀ sources avail s, s ∈ sources → lookupD sourceMap s s = s → s ∈ avail →
      s ∈ resolve_sources sources avail) := by
  refine ⟨?_, ?_, ?_, ?_⟩
  · intro avail
    rfl
  · intro sources s hs hnv
    have hnm : s ∉ validSources := by
      intro hmem
      have hcont : validSources.contains s = true := List.elem_eq_true_of_mem hmem
      rw [hcont] at hnv
      cases hnv
    simp [warnedSources, List.mem_filter, hs, hnm]
  · intro sources avail t ht
    by_cases hempty : sources.isEmpty = true
    · unfold resolve_sources at ht
      rw [if_pos hempty] at ht
      exact ht
    · unfold resolve_sources at ht
      rw [if_neg hempty] at ht
      rw [List.mem_filterMap] at ht
      obtain ⟨a, ha, hfa⟩ := ht
      by_cases hc : avail.contains (lookupD sourceMap a a) = true
      · rw [if_pos hc] at hfa
        cases hfa
        exact List.mem_of_elem_eq_true hc
      · rw [if_neg hc] at hfa
        cases hfa
  · intro sources avail s hs hlook hcont
    have hne : sources.isEmpty = false := by
      cases sources with
      | nil => exact absurd hs (List.not_mem_nil s)
      | cons a rest => rfl
    unfold resolve_sources
    rw [if_neg (by simp [hne])]
    rw [List.mem_filterMap]
    refine ⟨s, hs, ?_⟩
    show (if avail.contains (lookupD sourceMap s s) = true
      then some (lookupD sourceMap s s) else Option.none) = some s
    rw [hlook, if_pos (List.elem_eq_true_of_mem hcont)]

/-- Claim C5 (amended), witness at concrete resolutions. -/
theorem C5_source_resolution_amended_witness :
    resolve_sources [] ["teams_chat_knowledge"] = ["teams_chat_knowledge"] ∧
    "foo2" ∈ warnedSources ["foo2"] ∧
    "drive_documents_knowledge" ∈ (["drive_documents_knowledge"] : List String) ∧
    "bar" ∈ resolve_sources ["bar"] ["bar"] :=
  ⟨C5_source_resolution_amended.1 ["teams_chat_knowledge"],
    C5_source_resolution_amended.2.1 ["foo2"] "foo2" (by decide) (by decide),
    C5_source_resolution_amended.2.2.1 ["drive"] ["drive_documents_knowledge"]
      "drive_documents_knowledge" (by decide),
    C5_source_resolution_amended.2.2.2 ["bar"] ["bar"] "bar" (by decide) (by decide)
      (by decide)⟩

/-- Claim C6: on a successful ingest whose batch ids are pairwise distinct
and new to the collection, every Document the connector returned — in
particular one with an empty body, which no code path filters out —
contributes exactly one store entry, and the returned count equals the
number of Documents produced. -/
theorem C6_ingest_count (c : Connector) (name : String) (col : Collection)
    (processed : List Item) (triples : List (String × String × Item))
    (h : run_pipeline c = Except.ok processed)
    (hb : buildTriples name processed = Except.ok triples)
    (hnd : (triples.map (fun t => t.1)).Nodup)
    (hfresh : ∀ t ∈ triples, containsId col t.1 = false) :
    (process_connector_data c name col).2 = processed.length ∧
    (process_connector_data c name col).1.length = col.length + processed.length := by
  have hlen : triples.length = processed.length :=
    buildTriples_ok_length name processed triples hb
  rcases triples with _ | ⟨t, ts⟩
  · simp only [process_connector_data, h, hb, List.isEmpty_nil, if_true]
    constructor
    · exact hlen
    · rw [← hlen]
      simp
  · simp only [process_connector_data, h, hb, List.isEmpty_cons, Bool.false_eq_true,
      if_false, chromaAdd, if_pos hnd]
    constructor
    · exact hlen
    · rw [addEntries_fresh_length (t :: ts) col hnd hfresh, hlen]

/-- First Document of the C6 witness: its body (`message`) is empty. -/
def c6Item1 : Item := [("id", Value.str "m1"), ("message", Value.str ""),
  ("sender", Value.str "alice")]

/-- Second Document of the C6 witness. -/
def c6Item2 : Item := [("id", Value.str "m2"), ("message", Value.str "hello"),
  ("sender", Value.str "bob")]

/-- Connector of the C6 witness: two Documents, one with an empty body. -/
def c6Conn : Connector :=
  Connector.mk true (Except.ok [c6Item1, c6Item2]) (fun d => Except.ok d)

/-- Claim C6, witness: two Documents, one with an empty body, yield count 2
and two store entries. -/
theorem C6_ingest_count_witness :
    (process_connector_data c6Conn "teams_chat_knowledge" []).2 = 2 ∧
    (process_connector_data c6Conn "teams_chat_knowledge" []).1.length = 2 :=
  C6_ingest_count c6Conn "teams_chat_knowledge" [] [c6Item1, c6Item2] _ rfl rfl
    (by decide) (by decide)

/-- Claim C7: when the formatting of an item succeeds, the metadata mapping
submitted to the store holds exactly the item's scalar-valued fields — every
non-scalar field is dropped — plus the `source` tag (the lower-cased source,
which overwrites the item's own `source` field in place). -/
theorem C7_metadata_scalars (name : String) (idx : Nat) (item : Item)
    (i d : String) (m : Item)
    (hnd : (item.map Prod.fst).Nodup)
    (h : formatItem name idx item = Except.ok (i, d, m)) :
    ∃ src, sourceLower item = Except.ok src ∧
      ∀ k, itemGet m k = if k = "source" then some (Value.str src)
        else (itemGet item k).bind (fun v => if v.isScalar then some v else Option.none) := by
  cases hs : sourceLower item with
  | error e =>
    simp only [formatItem, hs] at h
    exact Except.noConfusion h
  | ok src =>
    cases hd2 : formatDoc src item with
    | error e =>
      simp only [formatItem, hs, hd2] at h
      exact Except.noConfusion h
    | ok document =>
      simp only [formatItem, hs, hd2, Except.ok.injEq, Prod.mk.injEq] at h
      obtain ⟨h1, h2, h3⟩ := h
      refine ⟨src, rfl, ?_⟩
      intro k
      rw [← h3]
      by_cases hk : k = "source"
      · subst hk
        rw [if_pos rfl]
        exact itemGet_setKey_self (item.filter fun kv => kv.2.isScalar) "source" (Value.str src)
      · rw [if_neg hk]
        unfold cleanMeta
        rw [itemGet_setKey_ne _ _ _ _ hk]
        exact itemGet_filter_val (fun v => v.isScalar) item hnd k

/-- Item of the C7 witness: carries a non-scalar `labels` field. -/
def c7Item : Item := [("id", Value.str "x1"), ("source", Value.str "GitHub"),
  ("labels", Value.list [Value.str "bug"]), ("count", Value.int 3)]

/-- Display text of the C7 witness item. -/
def c7Doc : String :=
  "📚 Source: GitHub\nRepository: \nTitle: \nURL: \n\nContent:\n"

/-- Metadata of the C7 witness item: scalars only, `source` lower-cased,
`labels` dropped. -/
def c7Meta : Item := [("id", Value.str "x1"), ("source", Value.str "github"),
  ("count", Value.int 3)]

/-- Claim C7, witness at the concrete item. -/
theorem C7_metadata_scalars_witness :
    ∃ src, sourceLower c7Item = Except.ok src ∧
      ∀ k, itemGet c7Meta k = if k = "source" then some (Value.str src)
        else (itemGet c7Item k).bind
          (fun v => if v.isScalar then some v else Option.none) :=
  C7_metadata_scalars "github_knowledge" 0 c7Item "x1" c7Doc c7Meta (by decide) rfl

/-- Claim C8: when no queried collection contributes a hit, one query
iteration reports the "no relevant information" outcome without ever
reaching the generation call, and that outcome is a constructor distinct
from both an answer and an error. -/
theorem C8_no_info_short_circuit (store : String → Except PyError QueryResults)
    (cols : List String) (q : String)
    (h : ∀ c ∈ cols, format_context (query_collection store c) c = Except.ok ([], [])) :
    run_query store cols q = QueryOutcome.noInfo ∧
    (∀ p, QueryOutcome.noInfo ≠ QueryOutcome.answered p) ∧
    (∀ e, QueryOutcome.noInfo ≠ QueryOutcome.failed e) := by
  refine ⟨?_, ?_, ?_⟩
  · have hf := fanOut_all_empty store cols h
    simp [run_query, hf]
  · intro p h2
    cases h2
  · intro e h2
    cases h2

/-- Store of the C8 witness: every collection returns no hits. -/
def c8Store : String → Except PyError QueryResults := fun _ => Except.ok emptyQueryResults

/-- Claim C8, witness over two hit-less collections. -/
theorem C8_no_info_short_circuit_witness :
    run_query c8Store ["teams_chat_knowledge", "jira_tickets_knowledge"] "any question"
      = QueryOutcome.noInfo ∧
    (∀ p, QueryOutcome.noInfo ≠ QueryOutcome.answered p) ∧
    (∀ e, QueryOutcome.noInfo ≠ QueryOutcome.failed e) :=
  C8_no_info_short_circuit c8Store ["teams_chat_knowledge", "jira_tickets_knowledge"]
    "any question" (fun _ _ => rfl)

/-- Claim C9: formatting is pure — the display text and metadata produced by
the ingestion formatter depend only on the item (not on the collection name
or the running index, which feed only the fallback id), and the retrieval
formatter is a function: identical inputs give identical outputs. -/
theorem C9_formatting_pure :
    (∀ name1 idx1 name2 idx2 item,
      (formatItem name1 idx1 item).map (fun t => (t.2.1, t.2.2))
        = (formatItem name2 idx2 item).map (fun t => (t.2.1, t.2.2))) ∧
    (∀ r1 c1 r2 c2, r1 = r2 → c1 = c2 →
      format_context r1 c1 = format_context r2 c2) := by
  constructor
  · intro n1 i1 n2 i2 item
    cases hs : sourceLower item with
    | error e => simp [formatItem, hs, Except.map]
    | ok src =>
      cases hd : formatDoc src item with
      | error e => simp [formatItem, hs, hd, Except.map]
      | ok document => simp [formatItem, hs, hd, Except.map]
  · intro r1 c1 r2 c2 h1 h2
    rw [h1, h2]

/-- Item of the C9 witness: it has no `id`, so the two formatter calls use
different fallback ids yet produce the same display text and metadata. -/
def c9Item : Item := [("message", Value.str "hi"), ("sender", Value.str "s")]

/-- Claim C9, witness: two calls with different collection names and indices
agree on text and metadata, and the retrieval formatter repeats itself. -/
theorem C9_formatting_pure_witness :
    (formatItem "a_knowledge" 0 c9Item).map (fun t => (t.2.1, t.2.2))
      = (formatItem "b_knowledge" 7 c9Item).map (fun t => (t.2.1, t.2.2)) ∧
    format_context emptyQueryResults "teams_chat_knowledge"
      = format_context emptyQueryResults "teams_chat_knowledge" :=
  ⟨C9_formatting_pure.1 "a_knowledge" 0 "b_knowledge" 7 c9Item,
    C9_formatting_pure.2 emptyQueryResults "teams_chat_knowledge" emptyQueryResults
      "teams_chat_knowledge" rfl rfl⟩

/-- Claim C10: on results of the shape the store (or the failure placeholder)
returns — parallel inner document/metadata lists — and hits whose per-entry
formatting succeeds, `format_context` yields one context block and exactly
one citation per hit: the two lists have equal length, namely the number of
hits, and both are empty exactly when there are no documents. -/
theorem C10_format_context_lengths (results : QueryResults) (cname : String)
    (d0 : List String) (m0 : List Item)
    (dtail : List (List String)) (mtail : List (List Item))
    (hd : results.documents = d0 :: dtail)
    (hm : results.metadatas = m0 :: mtail)
    (hlen : d0.length = m0.length)
    (hok : ∀ p ∈ d0.zip m0, (formatEntry cname p.1 p.2).isOk = true) :
    ∃ ctx srcs, format_context results cname = Except.ok (ctx, srcs) ∧
      ctx.length = srcs.length ∧ ctx.length = d0.length ∧
      (ctx = [] ↔ d0 = []) ∧ (srcs = [] ↔ d0 = []) := by
  rcases d0 with _ | ⟨dh, dt⟩
  · refine ⟨[], [], ?_, rfl, rfl, by simp, by simp⟩
    simp [format_context, hd]
  · rcases m0 with _ | ⟨mh, mt⟩
    · simp at hlen
    · obtain ⟨cs, ss, hrun, hc, hs⟩ := formatHits_ok cname ((dh :: dt).zip (mh :: mt)) hok
      have hzlen : ((dh :: dt).zip (mh :: mt)).length = (dh :: dt).length := by
        rw [List.length_zip, hlen, Nat.min_self]
      refine ⟨cs, ss, ?_, ?_, ?_, ?_, ?_⟩
      · simpa [format_context, hd, hm] using hrun
      · rw [hc, hs]
      · rw [hc, hzlen]
      · constructor
        · intro hcnil
          rw [hcnil] at hc
          rw [List.zip_cons_cons] at hc
          cases hc
        · intro hdnil
          exact absurd hdnil (by simp)
      · constructor
        · intro hsnil
          rw [hsnil] at hs
          rw [List.zip_cons_cons] at hs
          cases hs
        · intro hdnil
          exact absurd hdnil (by simp)

/-- Metadata of the C10 witness hit. -/
def c10Meta : Item := [("channel", Value.str "general"), ("sender", Value.str "u")]

/-- Query results of the C10 witness: one hit in one collection. -/
def c10Results : QueryResults := QueryResults.mk [["doc1"]] [[c10Meta]]

/-- Claim C10, witness at one concrete hit. -/
theorem C10_format_context_lengths_witness :
    ∃ ctx srcs, format_context c10Results "teams_chat_knowledge" = Except.ok (ctx, srcs) ∧
      ctx.length = srcs.length ∧ ctx.length = (["doc1"] : List String).length ∧
      (ctx = [] ↔ (["doc1"] : List String) = []) ∧
      (srcs = [] ↔ (["doc1"] : List String) = []) :=
  C10_format_context_lengths c10Results "teams_chat_knowledge" ["doc1"] [c10Meta] [] []
    rfl rfl rfl (by decide)
